import Mathlib

/-
Verification of the PDF extraction core of file-to-md-json.

Shallow embedding of src/processors/pdf_processor.py (class PDFProcessor)
together with the observable contract of src/processors/ocr_processor.py
(class OCRProcessor).  External collaborators (pdfplumber, PyMuPDF/fitz,
pdftk, tesseract, the filesystem) are modelled as an environment record
whose fields give the outcome of each external call.  Machine floats are
modelled by exact rationals; the comments at each definition note where
the float/rational distinction could matter (only at representation ties,
which no theorem below depends on).

Progress reporting (self._report_progress, which forwards to the caller's
progress sink) is modelled as a writer trace of (percentage, message)
pairs, and every actual invocation of the OCR engine adapter is likewise
recorded in a second trace of tags, so that claims about the progress
sequence and about which OCR stages ran can be stated.
-/

namespace PDFProc

attribute [local semireducible] Rat.mul Rat.inv Rat.add Rat.sub Rat.ofScientific

deriving instance DecidableEq for Except

/-- Python round(x, 2) on exact rationals: decimal round-half-even to two
places (Python rounds floats half-even in decimal; the two agree away from
decimal ties of the exact value). Used for metadata file_size_mb and
avg_text_per_page (pdf_processor.py lines 60, 151, 165, 243, 258). -/
def round2 (q : ℚ) : ℚ :=
  let n : ℤ := ⌊q * 100⌋
  let r : ℚ := q * 100 - n
  if r < 1/2 then (n : ℚ) / 100
  else if r > 1/2 then ((n + 1 : ℤ) : ℚ) / 100
  else if n % 2 = 0 then (n : ℚ) / 100 else ((n + 1 : ℤ) : ℚ) / 100

/-- Model of the Python format f"{q:.0%}" (percent, zero decimals); ties
round half-up here where Python rounds half-even, which no theorem uses. -/
def pct0 (q : ℚ) : String := toString (round (q * 100)) ++ "%"

/-- Model of the Python format f"{q:.2f}%" (used for ocr_confidence
metadata); the numeric text is abstracted by toString. -/
def pct2 (q : ℚ) : String := toString q ++ "%"

/-- Python str.strip(): drop leading and trailing whitespace (modulo the
exact whitespace set, which for extracted text agrees with
Char.isWhitespace). Defined structurally over the character list. -/
def pyStrip (s : String) : String :=
  ⟨((s.data.dropWhile Char.isWhitespace).reverse.dropWhile Char.isWhitespace).reverse⟩

/-- One table as returned by pdfplumber page.extract_tables(): rows of
cells, a cell being None or a string. -/
abbrev Table := List (List (Option String))

/-- One page object of the opened pdfplumber document.  extractText models
page.extract_text(): it can raise (.error), return None (.ok none) or
return a string; extractTables models page.extract_tables(), which the
source only consults in the standard pipeline for documents with fewer
than 100 pages. -/
structure PageObj where
  extractText : Except String (Option String)
  extractTables : List Table

/-- pdf.metadata when it is truthy: the four fields the source copies
(with .get defaults already applied). -/
structure PdfMeta where
  title : String
  author : String
  subject : String
  creator : String

/-- The opened pdfplumber document: its pages and its (possibly falsy,
modelled none) metadata mapping. -/
structure PdfDoc where
  pages : List PageObj
  metadata : Option PdfMeta

/-- One entry of the pages list produced by OCRProcessor._process_pdf_with_ocr
(ocr_processor.py lines 146-151 and 157-162). -/
structure OcrPage where
  page_number : ℕ
  text : String
  confidence : ℚ
  word_count : ℕ
  error : Option String
deriving DecidableEq

/-- The dictionary returned by OCRProcessor.process.  pages is [] when the
key is absent (image path); error is set on failure. -/
structure OcrOut where
  text : String
  ocr_confidence : Option ℚ
  pages_processed : ℕ
  pages : List OcrPage := []
  error : Option String := none
deriving DecidableEq

/-- OCRProcessor.process (ocr_processor.py lines 17-43): the try body
(existence check plus the pdf/image sub-run) is a fallible collaborator;
a raised exception is caught and converted into an error result whose
text is a non-empty message.  OCRProcessor.process therefore never raises. -/
def ocrProcess (body : Except String OcrOut) : OcrOut :=
  match body with
  | .ok r => r
  | .error e =>
      { text := "Error processing file with OCR: " ++ e
        ocr_confidence := none
        pages_processed := 0
        pages := []
        error := some e }

/-- An embedded image that decoded successfully: its original encoded
format (base_image["ext"]), its PIL color mode, dimensions, and original
encoded size in bytes. -/
structure ImgData where
  ext : String
  mode : String
  width : ℕ
  height : ℕ
  sizeBytes : ℕ
deriving DecidableEq

/-- The content of the re-encoded image payload, remembering how the
color mode was normalized before the JPEG save (pdf_processor.py lines
460-474). -/
inductive NormalizedImage where
  | flattenedOnWhite (orig : ImgData)
  | convertedRGB (orig : ImgData)
  | unchanged (orig : ImgData)
deriving DecidableEq

/-- The color-mode normalization of _extract_images (lines 461-471):
RGBA and LA are pasted onto an opaque white RGB background using the alpha
channel as mask; any mode other than RGB and L is image.convert("RGB");
RGB and L are kept as they are. -/
def normalizeImage (d : ImgData) : NormalizedImage :=
  if d.mode = "RGBA" ∨ d.mode = "LA" then .flattenedOnWhite d
  else if ¬ (d.mode = "RGB" ∨ d.mode = "L") then .convertedRGB d
  else .unchanged d

/-- The PIL color mode of the normalized image. -/
def NormalizedImage.mode : NormalizedImage → String
  | .flattenedOnWhite _ => "RGB"
  | .convertedRGB _ => "RGB"
  | .unchanged d => d.mode

/-- PIL color modes that carry an alpha channel (PIL documentation: RGBA,
LA, PA and the premultiplied variants RGBa, La). -/
def modeHasAlpha (m : String) : Bool :=
  m = "RGBA" || m = "LA" || m = "PA" || m = "RGBa" || m = "La"

/-- Outcome of one chunk of _chunked_ocr_processing (lines 358-385): the
pdftk sub-document extraction plus OCR succeed with some text; or pdftk
exits nonzero (subprocess.CalledProcessError, caught at line 381); or some
other exception is raised (for instance FileNotFoundError when pdftk is
not installed), which the per-chunk handler does not catch and which
therefore propagates to the outer try of the whole chunked stage. -/
inductive ChunkOutcome where
  | ok (text : String)
  | extractError
  | fatal (msg : String)
deriving DecidableEq

/-- The environment of one PDFProcessor.process invocation: outcomes of
every external call the source makes.
  openPdf      - pdfplumber.open plus os.path.getsize (lines 42-47);
  fileSize     - the file size in bytes when the open succeeded;
  ocrImport    - "from .ocr_processor import OCRProcessor" plus the
                 constructor: none when it succeeds, some msg when it
                 raises (for instance ImportError);
  ocrWhole     - the try body of OCRProcessor.process on the whole file;
  sampleOutcome - per sample page: none when the pdftk single-page
                 extraction (or anything else in the per-sample try)
                 fails and the sample is skipped, some t when OCR
                 completed returning text t (OCRProcessor never raises);
  chunkOutcome - per (chunk_start, chunk_end) of the chunked OCR stage;
  fitzOpen     - fitz.open for image extraction: the per-page lists of
                 embedded images, none marking an image whose extraction,
                 decode or re-encode raises and which is skipped. -/
structure Env where
  openPdf : Except String PdfDoc
  fileSize : ℕ
  ocrImport : Option String
  ocrWhole : Except String OcrOut
  sampleOutcome : ℕ → Option String
  chunkOutcome : ℕ → ℕ → ChunkOutcome
  fitzOpen : Except String (List (List (Option ImgData)))

/-- The metadata mapping of the result.  Python key presence is modelled
by Option fields; every key the source ever writes has a field. -/
structure Metadata where
  title : Option String := none
  author : Option String := none
  subject : Option String := none
  creator : Option String := none
  pages : Option ℕ := none
  file_size_mb : Option ℚ := none
  pages_with_text : Option ℕ := none
  avg_text_per_page : Option ℚ := none
  note : Option String := none
  recommendation : Option String := none
  processing_method : Option String := none
  ocr_test_result : Option String := none
  extraction_method : Option String := none
  fallback_reason : Option String := none
  ocr_confidence : Option String := none
  images_extracted : Option ℕ := none
  image_extraction_error : Option String := none
  pages_processed : Option ℕ := none
deriving DecidableEq

/-- One table record appended to result["tables"] (lines 119-125). -/
structure TableData where
  page : ℕ
  table_index : ℕ
  data : Table
deriving DecidableEq

/-- One page record appended to result["pages"]. -/
structure PageData where
  page_number : ℕ
  text : String
  tables : List TableData
deriving DecidableEq

/-- One image record appended to result["images"] (lines 478-489).
normalized models the decoded content of base64_data. -/
structure ImageInfo where
  page_number : ℕ
  image_index : ℕ
  format : String
  original_format : String
  width : ℕ
  height : ℕ
  size_bytes : ℕ
  normalized : NormalizedImage
  filename : String
deriving DecidableEq

/-- The ExtractionResult dictionary.  Keys that are only sometimes present
(error, ocr_confidence, pages_processed) are Options; ocr_pages is [] when
the key is absent. -/
structure Result where
  text : String := ""
  tables : List TableData := []
  pages : List PageData := []
  images : List ImageInfo := []
  metadata : Metadata := {}
  extraction_method : String := "text_extraction"
  error : Option String := none
  ocr_confidence : Option ℚ := none
  pages_processed : Option ℕ := none
  ocr_pages : List OcrPage := []
deriving DecidableEq

/-- The result dictionary initialised at the top of process (lines 30-37). -/
def initResult : Result := {}

/-- A progress update pushed to the progress sink. -/
abbrev Progress := ℕ × String

/-- avg_text_per_page = total_text_length / total_pages if total_pages
else 0 (lines 138 and 229). -/
def avgTextPerPage (ttl total : ℕ) : ℚ :=
  if total ≠ 0 then (ttl : ℚ) / (total : ℚ) else 0

/-- Standard-pipeline quality heuristic (line 144):
pages_with_text < total_pages * 0.5 or avg_text_per_page < 100. -/
def textExtractionFailedStd (pwt total : ℕ) (avg : ℚ) : Bool :=
  decide ((pwt : ℚ) < (total : ℚ) * (1/2)) || decide (avg < 100)

/-- Streaming-pipeline quality heuristic (line 235):
pages_with_text < total_pages * 0.3 or avg_text_per_page < 50.
0.3 is modelled by the exact rational 3/10 (the binary double 0.3 differs
by less than 2e-17, which cannot move an integer across the threshold for
any realistic page count). -/
def textExtractionFailedStream (pwt total : ℕ) (avg : ℚ) : Bool :=
  decide ((pwt : ℚ) < (total : ℚ) * (3/10)) || decide (avg < 50)

/-- Spec 4.3, written from the spec text: the standard profile fails
exactly when pages_with_text < total_pages * 0.5 OR avg_text_per_page
< 100 characters. -/
def specStandardFailure (pwt total : ℕ) (avg : ℚ) : Prop :=
  (pwt : ℚ) < (total : ℚ) * (1/2) ∨ avg < 100

/-- Spec 4.3, written from the spec text: the streaming profile fails
exactly when pages_with_text < total_pages * 0.3 OR avg_text_per_page
< 50 characters. -/
def specStreamingFailure (pwt total : ℕ) (avg : ℚ) : Prop :=
  (pwt : ℚ) < (total : ℚ) * (3/10) ∨ avg < 50

/-- str(cell) if cell else "" (lines 534, 541): a None or empty cell
renders as the empty string. -/
def cellStr : Option String → String
  | none => ""
  | some s => s

/-- One markdown table row. -/
def mdRow (cells : List String) : String :=
  "| " ++ String.intercalate " | " cells ++ " |\n"

/-- _table_to_markdown (lines 525-547): header row, separator row, then
data rows padded with empty cells up to the header width. -/
def tableToMarkdown (table : Table) : String :=
  match table with
  | [] => ""
  | header :: rows =>
    if header = [] then ""
    else
      let headers := header.map cellStr
      let top := mdRow headers ++ mdRow (List.replicate headers.length "---")
      rows.foldl
        (fun acc row =>
          if row ≠ [] then
            let cells := row.map cellStr
            let padded := cells ++ List.replicate (headers.length - cells.length) ""
            acc ++ mdRow padded
          else acc)
        top

/-- The table loop of the standard pipeline for one page (lines 114-129):
enumerate the extracted tables, keep the truthy (non-empty) ones as
TableData, and render each as a markdown block appended to the running
text. -/
def tableBlocks (pageNum : ℕ) : List Table → ℕ → List TableData × List String
  | [], _ => ([], [])
  | tb :: rest, idx =>
    let r := tableBlocks pageNum rest (idx + 1)
    if tb ≠ [] then
      let k := idx + 1
      let md := tableToMarkdown tb
      (⟨pageNum, idx, tb⟩ :: r.1,
       (s!"\n--- Table {k} (Page {pageNum}) ---\n" ++ md) :: r.2)
    else r

/-- Output of the page loop of _process_standard_pdf. err records a page
exception that aborted the loop (the source has no per-page try there);
the other fields are the loop state accumulated before the abort. -/
structure StdLoopOut where
  prog : List Progress
  fullText : List String
  pwt : ℕ
  ttl : ℕ
  pages : List PageData
  tables : List TableData
  err : Option String
deriving DecidableEq

/-- The page loop of _process_standard_pdf (lines 93-135), one page at a
time from page number n.  Per page: report progress 15 + (n/total)*70,
extract text (a raised exception stops the loop and propagates), strip,
count non-empty text, and for documents with fewer than 100 pages extract
tables.  The gc.collect every 10 pages has no observable effect and is
not modelled. -/
def stdLoop (total : ℕ) : List PageObj → ℕ → StdLoopOut
  | [], _ => ⟨[], [], 0, 0, [], [], none⟩
  | pg :: rest, n =>
    let p := 15 + (n * 70) / total
    let ev : Progress := (p, s!"Processing page {n}/{total}")
    match pg.extractText with
    | .error e => ⟨[ev], [], 0, 0, [], [], some e⟩
    | .ok t =>
      let tr : String × List String × ℕ × ℕ :=
        match t with
        | none => ("", [], 0, 0)
        | some s =>
          if s ≠ "" then
            let st := pyStrip s
            if st ≠ "" then (st, [s!"--- Page {n} ---\n{st}"], 1, st.length)
            else ("", [], 0, 0)
          else ("", [], 0, 0)
      let tbs : List TableData × List String :=
        if total < 100 then tableBlocks n pg.extractTables 0 else ([], [])
      let pd : PageData := ⟨n, tr.1, tbs.1⟩
      let r := stdLoop total rest (n + 1)
      ⟨ev :: r.prog, (tr.2.1 ++ tbs.2) ++ r.fullText, tr.2.2.1 + r.pwt,
       tr.2.2.2 + r.ttl, pd :: r.pages, tbs.1 ++ r.tables, r.err⟩

/-- Output of the page loop of _process_large_pdf_streaming. -/
structure StreamLoopOut where
  prog : List Progress
  fullText : List String
  pwt : ℕ
  ttl : ℕ
  pages : List PageData
deriving DecidableEq

/-- chunk_size = min(20, max(5, total_pages // 10)) (line 174). -/
def streamChunkSize (total : ℕ) : ℕ := min 20 (max 5 (total / 10))

/-- The inline per-page error marker of the streaming loop (line 215). -/
def streamErrorText (n : ℕ) (e : String) : String := s!"Error processing page {n}: {e}"

/-- The page loop of _process_large_pdf_streaming (lines 180-226),
flattened: the source iterates chunk_start over range(0, total, cs) and
page_idx over the chunk, which visits page indices 0,1,...,total-1 in
order; a chunk-header progress report is emitted exactly when the page
index is a multiple of cs, and chunk_text extended into full_text at
chunk end preserves the flat page order, so this single recursion over
the page list produces the same trace and state as the nested loops.
Per page: optional sub-progress (only when total > 500 and the 1-based
page number is a multiple of 10), then text extraction inside try: a
raised exception becomes an inline error marker in that page's record and
the loop continues.  gc.collect and time.sleep are not modelled. -/
def streamLoop (cs total : ℕ) : List PageObj → ℕ → StreamLoopOut
  | [], _ => ⟨[], [], 0, 0, []⟩
  | pg :: rest, idx =>
    let chunkStart := cs * (idx / cs)
    let chunkEnd := min (chunkStart + cs) total
    let prg := 15 + (chunkStart * 65) / total
    let headerEvs : List Progress :=
      if idx % cs = 0 then
        let cnum := chunkStart / cs + 1
        let ctot := (total + cs - 1) / cs
        let a := chunkStart + 1
        [(prg, s!"Processing chunk {cnum}/{ctot} (pages {a}-{chunkEnd})")]
      else []
    let n := idx + 1
    let subEvs : List Progress :=
      if total > 500 ∧ n % 10 = 0 then
        let sp := prg + ((idx - chunkStart) * 5) / cs
        [(sp, s!"Processing page {n}/{total}")]
      else []
    match pg.extractText with
    | .error e =>
      let pd : PageData := ⟨n, streamErrorText n e, []⟩
      let r := streamLoop cs total rest (idx + 1)
      ⟨headerEvs ++ subEvs ++ r.prog, r.fullText, r.pwt, r.ttl, pd :: r.pages⟩
    | .ok t =>
      let tr : String × List String × ℕ × ℕ :=
        match t with
        | none => ("", [], 0, 0)
        | some s =>
          if s ≠ "" then
            let st := pyStrip s
            if st ≠ "" then (st, [s!"--- Page {n} ---\n{st}"], 1, st.length)
            else ("", [], 0, 0)
          else ("", [], 0, 0)
      let pd : PageData := ⟨n, tr.1, []⟩
      let r := streamLoop cs total rest (idx + 1)
      ⟨headerEvs ++ subEvs ++ r.prog, tr.2.1 ++ r.fullText, tr.2.2.1 + r.pwt,
       tr.2.2.2 + r.ttl, pd :: r.pages⟩

/-- _fallback_to_ocr (lines 403-434).  Its try body can only raise at
the import / constructor (modelled by env.ocrImport); OCRProcessor.process
itself never raises.  On a raised exception the handler records the error
and returns.  The second component records the actual OCR engine
invocations.  Note that when OCR runs, only its text, method, confidence
and page info are merged: an error inside the OCR run is NOT copied into
the result's error field. -/
def fallbackToOcr (env : Env) (existing : Result) : Result × List String :=
  match env.ocrImport with
  | some m => ({ existing with error := some ("OCR fallback failed: " ++ m) }, [])
  | none =>
    let ocr := ocrProcess env.ocrWhole
    let r1 : Result :=
      { existing with
          text := ocr.text
          extraction_method := "ocr_fallback"
          ocr_confidence := ocr.ocr_confidence
          pages_processed := some ocr.pages_processed }
    let md1 := { r1.metadata with extraction_method := some "OCR (Scanned PDF)" }
    let md2 :=
      match ocr.ocr_confidence with
      | some c => if c ≠ 0 then { md1 with ocr_confidence := some (pct2 c) } else md1
      | none => md1
    ({ r1 with
        metadata := md2
        ocr_pages := if ocr.pages ≠ [] then ocr.pages else r1.ocr_pages }, ["whole_document_ocr"])

/-- The top-level exception handler of process (lines 74-82): run
_fallback_to_ocr on the result as mutated so far, then record the original
error as metadata fallback_reason.  The inner handler of lines 80-82 is
unreachable because _fallback_to_ocr catches its own exceptions and
returns normally, so it is not modelled. -/
def processException (env : Env) (result : Result) (e : String) : Result × List String :=
  let f := fallbackToOcr env result
  ({ f.1 with metadata := { f.1.metadata with fallback_reason := some ("PDF processing error: " ++ e) } }, f.2)

/-- sample page selection of _smart_ocr_for_large_files (lines 272-282):
all pages when total_pages <= 10, otherwise first three, the three around
total_pages // 2 and the last three.  For total_pages > 10 these nine
values are pairwise distinct and in range, so the Python
list(set(filter(...))) only reorders them (CPython set order is
implementation defined); the model keeps the constructed ascending
order. -/
def samplePagesFor (total : ℕ) : List ℕ :=
  if total ≤ 10 then List.range' 1 total
  else
    let middle := total / 2
    [1, 2, 3, middle - 1, middle, middle + 1, total - 2, total - 1, total]

/-- A tested sample counts as a success when OCR completed and
page_result text is truthy with a stripped length above 50 (line 306). -/
def sampleIsSuccess : Option String → Bool
  | none => false
  | some t => t ≠ "" && (pyStrip t).length > 50

/-- The sample testing loop (lines 289-316) counts successes over at most
the first five sample pages; samples whose sub-document extraction fails
are skipped without counting. -/
def sampleSuccessCount (env : Env) (pages : List ℕ) : ℕ :=
  (pages.take 5).countP (fun p => sampleIsSuccess (env.sampleOutcome p))

/-- The OCR engine invocations made by the sample loop: one per sample
page whose single-page sub-document was materialised (skipped samples
never reach the OCR call). -/
def sampleOcrTags (env : Env) (pages : List ℕ) : List String :=
  (pages.take 5).filterMap (fun p => (env.sampleOutcome p).map (fun _ => s!"sample_ocr:{p}"))

/-- The chunk ranges of _chunked_ocr_processing: chunk_start over
range(1, total_pages + 1, 20) with chunk_end = min(chunk_start + 19,
total_pages) (lines 348-353). -/
def chunkRanges (total : ℕ) : List (ℕ × ℕ) :=
  (List.range' 1 ((total + 19) / 20) 20).map (fun s => (s, min (s + 19) total))

/-- The explicit error block appended for a chunk whose pdftk extraction
exits nonzero (line 383). -/
def chunkErrorBlock (s e : ℕ) : String :=
  s!"--- Pages {s}-{e} ---\nError: Could not process this chunk"

/-- The page-range-tagged text block appended for a successfully OCRed
chunk (line 371). -/
def chunkTextBlock (s e : ℕ) (t : String) : String := s!"--- Pages {s}-{e} ---\n{t}"

/-- Output of the chunk loop of _chunked_ocr_processing. fatal records an
exception that escaped the per-chunk handler and aborted the loop. -/
structure ChunkLoopOut where
  prog : List Progress
  blocks : List String
  processed : ℕ
  ocr : List String
  fatal : Option String
deriving DecidableEq

/-- The chunk loop of _chunked_ocr_processing (lines 352-385): per chunk,
report progress 95 + (processed/total)*5, then extract the chunk with
pdftk and OCR it.  Truthy chunk text is appended tagged with its page
range; a CalledProcessError appends an explicit error block and
continues; any other exception (for instance FileNotFoundError when
pdftk is missing) aborts the loop.  time.sleep is not modelled. -/
def chunkedLoop (env : Env) (total : ℕ) : List (ℕ × ℕ) → ℕ → ChunkLoopOut
  | [], processed => ⟨[], [], processed, [], none⟩
  | (s, e) :: rest, processed =>
    let p := 95 + (processed * 5) / total
    let ev : Progress := (p, s!"OCR processing pages {s}-{e}/{total}")
    match env.chunkOutcome s e with
    | .fatal m => ⟨[ev], [], processed, [], some m⟩
    | .extractError =>
      let blk := chunkErrorBlock s e
      let r := chunkedLoop env total rest (processed + (e - s + 1))
      ⟨ev :: r.prog, blk :: r.blocks, r.processed, r.ocr, r.fatal⟩
    | .ok t =>
      let blks : List String := if t ≠ "" then [chunkTextBlock s e t] else []
      let r := chunkedLoop env total rest (processed + (e - s + 1))
      ⟨ev :: r.prog, blks ++ r.blocks, r.processed, s!"chunk_ocr:{s}-{e}" :: r.ocr, r.fatal⟩

/-- The block one chunk range contributes to the output text when no
fatal outcome aborts the loop: the page-range-tagged OCR text when
truthy, the explicit error block on a pdftk CalledProcessError, nothing
for empty OCR text. -/
def chunkBlock (env : Env) (s e : ℕ) : Option String :=
  match env.chunkOutcome s e with
  | .ok t => if t ≠ "" then some (chunkTextBlock s e t) else none
  | .extractError => some (chunkErrorBlock s e)
  | .fatal _ => none

/-- Combined result and traces of a pipeline stage: the result, the
progress updates pushed, and the OCR engine invocations made. -/
structure RunOut where
  result : Result
  prog : List Progress
  ocr : List String
deriving DecidableEq

/-- _chunked_ocr_processing (lines 340-401).  The outer try fails either
at the import (before the loop) or when a chunk outcome is fatal; both
produce the fallback result with a populated error.  On completion the
blocks are joined with blank lines and the extraction method is set to
chunked_ocr. -/
def chunkedOcrProcessing (env : Env) (existing : Result) (total : ℕ) : RunOut :=
  match env.ocrImport with
  | some m =>
    ⟨{ existing with
        text := "Chunked OCR processing failed. This PDF may be too large or complex for OCR."
        error := some ("Chunked OCR failed: " ++ m)
        metadata := { existing.metadata with fallback_reason := some m } }, [], []⟩
  | none =>
    let out := chunkedLoop env total (chunkRanges total) 0
    match out.fatal with
    | some m =>
      ⟨{ existing with
          text := "Chunked OCR processing failed. This PDF may be too large or complex for OCR."
          error := some ("Chunked OCR failed: " ++ m)
          metadata := { existing.metadata with fallback_reason := some m } }, out.prog, out.ocr⟩
    | none =>
      ⟨{ existing with
          text := String.intercalate "\n\n" out.blocks
          extraction_method := "chunked_ocr"
          metadata :=
            { existing.metadata with
                extraction_method := some "Chunked OCR (Large Scanned PDF)"
                pages_processed := some out.processed
                processing_method := some "chunked_ocr_large_file" } }, out.prog, out.ocr⟩

/-- _smart_ocr_for_large_files (lines 263-338).  The outer try fails only
at the import / constructor; the sample loop skips failing samples.
success_rate = sample_success / max(sample_total, 1) where sample_total
is len(sample_pages) (line 287), the full sample list, NOT the number of
pages actually tested.  Above 0.5 the chunked processor runs; otherwise
line 330 keeps the already present text (result.get of an always-present
key) and failure metadata is attached. -/
def smartOcrForLargeFiles (env : Env) (existing : Result) (total : ℕ) : RunOut :=
  match env.ocrImport with
  | some m => ⟨{ existing with error := some ("Smart OCR failed: " ++ m) }, [], []⟩
  | none =>
    let ev92 : List Progress := [(92, "Testing OCR on sample pages...")]
    let pages := samplePagesFor total
    let succ := sampleSuccessCount env pages
    let tags := sampleOcrTags env pages
    let rate : ℚ := (succ : ℚ) / ((max pages.length 1 : ℕ) : ℚ)
    let pm := pct0 rate
    if rate > 1/2 then
      let c := chunkedOcrProcessing env existing total
      ⟨c.result,
       ev92 ++ [(95, "OCR successful on samples (" ++ pm ++ "). Processing full document...")] ++ c.prog,
       tags ++ c.ocr⟩
    else
      ⟨{ existing with
          text := existing.text
          metadata :=
            { existing.metadata with
                ocr_test_result := some ("Failed (" ++ pm ++ " success rate on sample pages)")
                recommendation := some "This PDF may not be scannable or may require different OCR settings" } },
       ev92 ++ [(95, "OCR test failed on samples (" ++ pm ++ "). Using text extraction only...")],
       tags⟩

/-- The post-loop decision of _process_standard_pdf (lines 137-167):
compute the average, report 85, read file_size_mb back from the metadata
(0 when the key is absent), and branch on the quality heuristic and the
size thresholds.  The >200MB branch of this pipeline does NOT set any
text_extraction_only marker. -/
def standardDecision (env : Env) (r : Result) (total pwt ttl : ℕ)
    (fullText : List String) : RunOut :=
  let avg := avgTextPerPage ttl total
  let ev85 : List Progress := [(85, "Analyzing extracted content...")]
  let fs : ℚ := r.metadata.file_size_mb.getD 0
  if textExtractionFailedStd pwt total avg then
    if fs > 200 then
      let txt :=
        if fullText ≠ [] then String.intercalate "\n\n" fullText
        else "This appears to be a scanned PDF with minimal text extraction. OCR was skipped due to file size (>200MB)."
      ⟨{ r with
          text := txt
          metadata :=
            { r.metadata with
                pages_with_text := some pwt
                avg_text_per_page := some (round2 avg)
                note := some "OCR skipped for extremely large file - recommend splitting PDF first"
                recommendation := some "Split this PDF into smaller chunks for OCR processing" } },
        ev85, []⟩
    else if fs > 100 then
      let s := smartOcrForLargeFiles env r total
      ⟨s.result,
       ev85 ++ [(90, "Large scanned PDF detected - using smart OCR approach...")] ++ s.prog,
       s.ocr⟩
    else
      let f := fallbackToOcr env r
      ⟨f.1, ev85 ++ [(90, "Low text extraction detected, trying OCR...")], f.2⟩
  else
    ⟨{ r with
        text := String.intercalate "\n\n" fullText
        metadata :=
          { r.metadata with
              pages_with_text := some pwt
              avg_text_per_page := some (round2 avg) } },
      ev85, []⟩

/-- The post-loop decision of _process_large_pdf_streaming (lines
228-261): looser heuristic thresholds, and the >200MB branch additionally
records processing_method = text_extraction_only (line 244) while leaving
the top-level extraction_method untouched. -/
def streamingDecision (env : Env) (r : Result) (total pwt ttl : ℕ)
    (fullText : List String) : RunOut :=
  let avg := avgTextPerPage ttl total
  let ev85 : List Progress := [(85, "Analyzing extracted content...")]
  let fs : ℚ := r.metadata.file_size_mb.getD 0
  if textExtractionFailedStream pwt total avg then
    if fs > 200 then
      let ev88 : List Progress := [(88, "Very large scanned PDF detected. OCR may take hours...")]
      let txt :=
        if fullText ≠ [] then String.intercalate "\n\n" fullText
        else "This appears to be a scanned PDF with minimal text extraction. OCR was skipped due to file size (>200MB)."
      ⟨{ r with
          text := txt
          metadata :=
            { r.metadata with
                pages_with_text := some pwt
                avg_text_per_page := some (round2 avg)
                processing_method := some "text_extraction_only"
                note := some "OCR skipped for extremely large file - recommend splitting PDF first"
                recommendation := some "Split this PDF into smaller chunks for OCR processing" } },
        ev85 ++ ev88, []⟩
    else if fs > 100 then
      let s := smartOcrForLargeFiles env r total
      ⟨s.result,
       ev85 ++ [(90, "Large scanned PDF detected - testing OCR on sample pages...")] ++ s.prog,
       s.ocr⟩
    else
      let f := fallbackToOcr env r
      ⟨f.1, ev85 ++ [(90, "Low text extraction detected, trying OCR...")], f.2⟩
  else
    ⟨{ r with
        text := String.intercalate "\n\n" fullText
        metadata :=
          { r.metadata with
              pages_with_text := some pwt
              avg_text_per_page := some (round2 avg)
              processing_method := some "streaming" } },
      ev85, []⟩

/-- Output of _process_standard_pdf as seen by process: either the
completed result, or a propagating exception together with the result as
mutated before the abort (result["pages"] and result["tables"] are
appended in place during the loop). -/
structure StdPipeOut where
  result : Except (String × Result) Result
  prog : List Progress
  ocr : List String

/-- _process_standard_pdf (lines 87-167) = the page loop followed by the
decision.  A page exception escapes with the partially filled result. -/
def processStandardPdf (env : Env) (pdf : PdfDoc) (r1 : Result) (total : ℕ) : StdPipeOut :=
  let out := stdLoop total pdf.pages 1
  match out.err with
  | some e =>
    ⟨.error (e, { r1 with pages := r1.pages ++ out.pages, tables := r1.tables ++ out.tables }),
     out.prog, []⟩
  | none =>
    let rIn := { r1 with pages := r1.pages ++ out.pages, tables := r1.tables ++ out.tables }
    let d := standardDecision env rIn total out.pwt out.ttl out.fullText
    ⟨.ok d.result, out.prog ++ d.prog, d.ocr⟩

/-- _process_large_pdf_streaming (lines 169-261): report 15, run the
chunked page loop (which never raises), then decide. -/
def processLargePdfStreaming (env : Env) (pdf : PdfDoc) (r1 : Result) (total : ℕ) : RunOut :=
  let ev15 : List Progress := [(15, "Using streaming approach for large PDF...")]
  let cs := streamChunkSize total
  let out := streamLoop cs total pdf.pages 0
  let rIn := { r1 with pages := r1.pages ++ out.pages }
  let d := streamingDecision env rIn total out.pwt out.ttl out.fullText
  ⟨d.result, ev15 ++ out.prog ++ d.prog, d.ocr⟩

/-- One image record (lines 478-489).  width and height are those of the
normalized image, which equal the decoded dimensions (paste and convert
preserve size); size_bytes is the original encoded size. -/
def mkImageInfo (pageNum idx : ℕ) (d : ImgData) : ImageInfo :=
  let a := pageNum + 1
  let b := idx + 1
  { page_number := pageNum + 1
    image_index := idx
    format := "JPEG"
    original_format := d.ext
    width := d.width
    height := d.height
    size_bytes := d.sizeBytes
    normalized := normalizeImage d
    filename := s!"page_{a}_image_{b}.jpg" }

/-- The inner image loop of _extract_images for one page (lines 446-500):
enumerate the page's images, skip any whose processing raises, append a
record for the rest, and break once the running count reaches 50. -/
def extractPageImages (pageNum : ℕ) : List (Option ImgData) → ℕ → ℕ → ℕ × List ImageInfo
  | [], _, count => (count, [])
  | none :: rest, idx, count => extractPageImages pageNum rest (idx + 1) count
  | some d :: rest, idx, count =>
    let info := mkImageInfo pageNum idx d
    let count' := count + 1
    if count' ≥ 50 then (count', [info])
    else
      let r := extractPageImages pageNum rest (idx + 1) count'
      (r.1, info :: r.2)

/-- The outer page loop of _extract_images (lines 442-503): after each
page, stop when the running count has reached 50. -/
def extractAllImages : List (List (Option ImgData)) → ℕ → ℕ → ℕ × List ImageInfo
  | [], _, count => (count, [])
  | pg :: rest, pageNum, count =>
    let r1 := extractPageImages pageNum pg 0 count
    if r1.1 ≥ 50 then r1
    else
      let r2 := extractAllImages rest (pageNum + 1) r1.1
      (r2.1, r1.2 ++ r2.2)

/-- _extract_images (lines 436-523): on a failed fitz.open the phase is
abandoned with the exception text in the metadata and images_extracted
0; otherwise the records are appended, the count is stored, and a
progress report at 89 is pushed when at least one image was extracted. -/
def extractImages (env : Env) (result : Result) : Result × List Progress :=
  match env.fitzOpen with
  | .error e =>
    ({ result with
        metadata :=
          { result.metadata with
              image_extraction_error := some e
              images_extracted := some 0 } }, [])
  | .ok pageImages =>
    let r := extractAllImages pageImages 0 0
    let res :=
      { result with
          images := result.images ++ r.2
          metadata := { result.metadata with images_extracted := some r.1 } }
    if r.1 > 0 then (res, [(89, s!"Extracted {r.1} images from PDF")]) else (res, [])

/-- The result and traces of one whole process invocation. -/
structure ProcOut where
  result : Result
  prog : List Progress
  ocr : List String
deriving DecidableEq

/-- result["metadata"] as replaced at lines 53-61 when pdf.metadata is
truthy: a fresh mapping of the six copied keys. -/
def openedMetadata (pdf : PdfDoc) (total : ℕ) (mb : ℚ) : Metadata :=
  match pdf.metadata with
  | none => {}
  | some md =>
    { title := some md.title
      author := some md.author
      subject := some md.subject
      creator := some md.creator
      pages := some total
      file_size_mb := some (round2 mb) }

/-- The body of process up to (but excluding) the final completion
report: open the document, record metadata, choose the pipeline by file
size, and on any exception reaching the top level (a failed open, or a
page exception escaping the standard pipeline) report 95 and fall back to
whole-document OCR; on the non-exception paths extract images.  The mb
value is the exact fileSize / 2^20 (float division of such sizes is
exact). -/
def processCore (env : Env) : ProcOut :=
  let ev5 : List Progress := [(5, "Opening PDF file...")]
  match env.openPdf with
  | .error e =>
    let ev95 : List Progress := [(95, "PDF processing failed, attempting OCR fallback...")]
    let f := processException env initResult e
    ⟨f.1, ev5 ++ ev95, f.2⟩
  | .ok pdf =>
    let total := pdf.pages.length
    let mb : ℚ := (env.fileSize : ℚ) / (1024 * 1024)
    let mbs := toString mb
    let ev10 : List Progress := [(10, s!"PDF opened: {total} pages, {mbs}MB")]
    let r1 : Result := { initResult with metadata := openedMetadata pdf total mb }
    if mb > 50 then
      let ev12 : List Progress := [(12, "Large file detected - using streaming approach...")]
      let s := processLargePdfStreaming env pdf r1 total
      let im := extractImages env s.result
      ⟨im.1, ev5 ++ ev10 ++ ev12 ++ s.prog ++ [(87, "Extracting images from PDF...")] ++ im.2, s.ocr⟩
    else
      let p := processStandardPdf env pdf r1 total
      match p.result with
      | .ok r2 =>
        let im := extractImages env r2
        ⟨im.1, ev5 ++ ev10 ++ p.prog ++ [(87, "Extracting images from PDF...")] ++ im.2, p.ocr⟩
      | .error pe =>
        let ev95 : List Progress := [(95, "PDF processing failed, attempting OCR fallback...")]
        let f := processException env pe.2 pe.1
        ⟨f.1, ev5 ++ ev10 ++ p.prog ++ ev95, p.ocr ++ f.2⟩

/-- PDFProcessor.process (lines 28-85): the core followed by the
unconditional completion report at 100 (line 84), on every path. -/
def process (env : Env) : ProcOut :=
  let c := processCore env
  ⟨c.result, c.prog ++ [(100, "PDF processing completed")], c.ocr⟩

/-! ### Concrete documents and environments used by counterexamples and witnesses -/

/-- A page whose extract_text returns None (a page with no text layer). -/
def noTextPage : PageObj := ⟨.ok none, []⟩

/-- A page whose extract_text raises. -/
def failingPage : PageObj := ⟨.error "boom", []⟩

/-- A page with a comfortable amount of text. -/
def richPage : PageObj :=
  ⟨.ok (some "This page carries a comfortable amount of body text for extraction."), []⟩

/-- A small scanned single-page document, no document metadata. -/
def envC2 : Env :=
  { openPdf := .ok ⟨[noTextPage], none⟩
    fileSize := 1000
    ocrImport := none
    ocrWhole := .ok { text := "ocr text", ocr_confidence := none, pages_processed := 1 }
    sampleOutcome := fun _ => none
    chunkOutcome := fun _ _ => .extractError
    fitzOpen := .ok [[]] }

/-- A 250MB single-page scanned document with document metadata present. -/
def envC1 : Env :=
  { openPdf := .ok ⟨[noTextPage], some ⟨"t", "a", "s", "c"⟩⟩
    fileSize := 262144000
    ocrImport := none
    ocrWhole := .ok { text := "", ocr_confidence := none, pages_processed := 0 }
    sampleOutcome := fun _ => none
    chunkOutcome := fun _ _ => .extractError
    fitzOpen := .ok [[]] }

/-- A small document whose first page raises during text extraction and
whose second page has text. -/
def envC3 : Env :=
  { openPdf := .ok ⟨[failingPage, richPage], none⟩
    fileSize := 1000
    ocrImport := none
    ocrWhole := .ok { text := "whole document ocr text", ocr_confidence := none, pages_processed := 2 }
    sampleOutcome := fun _ => none
    chunkOutcome := fun _ _ => .extractError
    fitzOpen := .ok [[]] }

/-- A 150MB 20-page scanned document: the sample list is the nine pages
[1,2,3,9,10,11,18,19,20], only [1,2,3,9,10] are tested, pages 1,2,3,9
OCR well (51 characters) and page 10 OCRs empty. -/
def envC4 : Env :=
  { openPdf := .ok ⟨List.replicate 20 noTextPage, some ⟨"t", "a", "s", "c"⟩⟩
    fileSize := 157286400
    ocrImport := none
    ocrWhole := .ok { text := "", ocr_confidence := none, pages_processed := 0 }
    sampleOutcome := fun p =>
      if p = 1 ∨ p = 2 ∨ p = 3 ∨ p = 9 then
        some "xxxxxxxxxxxxxxxxxxxxxxxxxxxxxxxxxxxxxxxxxxxxxxxxxxx"
      else if p = 10 then some "" else none
    chunkOutcome := fun _ _ => .ok "chunk text"
    fitzOpen := .ok [[]] }

/-- A document that fails to parse at all, whose whole-document OCR also
fails internally (OCRProcessor catches and reports in its result). -/
def envC6 : Env :=
  { openPdf := .error "parse failure"
    fileSize := 1000
    ocrImport := none
    ocrWhole := .error "tesseract missing"
    sampleOutcome := fun _ => none
    chunkOutcome := fun _ _ => .extractError
    fitzOpen := .ok [[]] }

/-- A 40-page chunked OCR run whose first chunk extraction raises
FileNotFoundError (pdftk not installed); the second chunk would succeed. -/
def envC7 : Env :=
  { openPdf := .ok ⟨[], none⟩
    fileSize := 0
    ocrImport := none
    ocrWhole := .ok { text := "", ocr_confidence := none, pages_processed := 0 }
    sampleOutcome := fun _ => none
    chunkOutcome := fun s _ => if s = 1 then .fatal "pdftk not found" else .ok "chunk text"
    fitzOpen := .ok [[]] }

/-- An embedded image in PIL mode PA (palette with alpha). -/
def paImg : ImgData := ⟨"png", "PA", 10, 10, 100⟩

/-- An embedded image in PIL mode L (single channel). -/
def lImg : ImgData := ⟨"png", "L", 10, 10, 100⟩

/-- A document with one page holding a PA image and an L image. -/
def envC9 : Env :=
  { openPdf := .ok ⟨[], none⟩
    fileSize := 0
    ocrImport := none
    ocrWhole := .ok { text := "", ocr_confidence := none, pages_processed := 0 }
    sampleOutcome := fun _ => none
    chunkOutcome := fun _ _ => .extractError
    fitzOpen := .ok [[some paImg, some lImg]] }

/-- A chunked OCR environment in which every chunk's pdftk extraction
exits nonzero (CalledProcessError) and none raises fatally. -/
def envC7W : Env :=
  { openPdf := .ok ⟨[], none⟩
    fileSize := 0
    ocrImport := none
    ocrWhole := .ok { text := "", ocr_confidence := none, pages_processed := 0 }
    sampleOutcome := fun _ => none
    chunkOutcome := fun _ _ => .extractError
    fitzOpen := .ok [[]] }

/-! ### Helper lemmas: which result fields each stage leaves untouched,
and the shape of the loops -/

/-- _extract_images only appends image records and writes the
images_extracted / image_extraction_error metadata keys. -/
lemma extractImages_preserves (env : Env) (r : Result) :
    (extractImages env r).1.extraction_method = r.extraction_method ∧
    (extractImages env r).1.metadata.note = r.metadata.note ∧
    (extractImages env r).1.metadata.recommendation = r.metadata.recommendation ∧
    (extractImages env r).1.metadata.processing_method = r.metadata.processing_method ∧
    (extractImages env r).1.metadata.file_size_mb = r.metadata.file_size_mb ∧
    (extractImages env r).1.error = r.error ∧
    (extractImages env r).1.text = r.text := by
  unfold extractImages
  cases h : env.fitzOpen with
  | error e => simp
  | ok pages =>
    dsimp only
    split <;> simp

/-- _fallback_to_ocr never writes file_size_mb and never touches the
images list. -/
lemma fallbackToOcr_preserves (env : Env) (r : Result) :
    (fallbackToOcr env r).1.metadata.file_size_mb = r.metadata.file_size_mb ∧
    (fallbackToOcr env r).1.images = r.images := by
  unfold fallbackToOcr
  cases env.ocrImport with
  | none =>
    dsimp only
    constructor
    · split
      · split <;> simp
      · simp
    · simp
  | some m => simp

/-- The top-level exception handler never writes file_size_mb and never
touches the images list. -/
lemma processException_preserves (env : Env) (r : Result) (e : String) :
    (processException env r e).1.metadata.file_size_mb = r.metadata.file_size_mb ∧
    (processException env r e).1.images = r.images := by
  unfold processException
  have h := fallbackToOcr_preserves env r
  simp [h.1, h.2]

/-- _chunked_ocr_processing never writes file_size_mb and never touches
the images list. -/
lemma chunkedOcrProcessing_preserves (env : Env) (r : Result) (total : ℕ) :
    (chunkedOcrProcessing env r total).result.metadata.file_size_mb = r.metadata.file_size_mb ∧
    (chunkedOcrProcessing env r total).result.images = r.images := by
  unfold chunkedOcrProcessing
  cases env.ocrImport with
  | none =>
    dsimp only
    split <;> simp
  | some m => simp

/-- _smart_ocr_for_large_files never writes file_size_mb and never
touches the images list. -/
lemma smartOcrForLargeFiles_preserves (env : Env) (r : Result) (total : ℕ) :
    (smartOcrForLargeFiles env r total).result.metadata.file_size_mb = r.metadata.file_size_mb ∧
    (smartOcrForLargeFiles env r total).result.images = r.images := by
  unfold smartOcrForLargeFiles
  cases env.ocrImport with
  | none =>
    dsimp only
    split
    · exact chunkedOcrProcessing_preserves env r total
    · simp
  | some m => simp

/-- The standard decision step never writes file_size_mb and never
touches the images list. -/
lemma standardDecision_preserves (env : Env) (r : Result) (total pwt ttl : ℕ)
    (fullText : List String) :
    (standardDecision env r total pwt ttl fullText).result.metadata.file_size_mb =
      r.metadata.file_size_mb ∧
    (standardDecision env r total pwt ttl fullText).result.images = r.images := by
  unfold standardDecision
  dsimp only
  split
  · split
    · simp
    · split
      · exact smartOcrForLargeFiles_preserves env r total
      · exact fallbackToOcr_preserves env r
  · simp

/-- The streaming decision step never writes file_size_mb and never
touches the images list. -/
lemma streamingDecision_preserves (env : Env) (r : Result) (total pwt ttl : ℕ)
    (fullText : List String) :
    (streamingDecision env r total pwt ttl fullText).result.metadata.file_size_mb =
      r.metadata.file_size_mb ∧
    (streamingDecision env r total pwt ttl fullText).result.images = r.images := by
  unfold streamingDecision
  dsimp only
  split
  · split
    · simp
    · split
      · exact smartOcrForLargeFiles_preserves env r total
      · exact fallbackToOcr_preserves env r
  · simp

/-- _extract_images never writes file_size_mb. -/
lemma extractImages_fsmb (env : Env) (r : Result) :
    (extractImages env r).1.metadata.file_size_mb = r.metadata.file_size_mb := by
  unfold extractImages
  cases h : env.fitzOpen with
  | error e => simp
  | ok pages =>
    dsimp only
    split <;> simp

/-- The streaming pipeline result's images list is the one it was given. -/
lemma processLargePdfStreaming_images (env : Env) (pdf : PdfDoc) (r1 : Result) (total : ℕ) :
    (processLargePdfStreaming env pdf r1 total).result.images = r1.images := by
  unfold processLargePdfStreaming
  dsimp only
  exact (streamingDecision_preserves env _ total _ _ _).2

/-- The inner image loop of _extract_images: the returned counter is the
incoming one plus the number of records produced, the records stay below
the 50 cap when the counter came in below it, and every record's
normalized format field is JPEG. -/
lemma extractPageImages_spec (pageNum : ℕ) (ps : List (Option ImgData)) (idx count : ℕ) :
    (extractPageImages pageNum ps idx count).1 =
      count + (extractPageImages pageNum ps idx count).2.length ∧
    (count < 50 → (extractPageImages pageNum ps idx count).1 ≤ 50) ∧
    (∀ i ∈ (extractPageImages pageNum ps idx count).2, i.format = "JPEG") := by
  induction ps generalizing idx count with
  | nil => exact ⟨rfl, fun _ => by simp [extractPageImages]; omega, by simp [extractPageImages]⟩
  | cons hd rest ih =>
    cases hd with
    | none => simpa [extractPageImages] using ih (idx + 1) count
    | some d =>
      dsimp only [extractPageImages]
      by_cases hc : count + 1 ≥ 50
      · rw [if_pos hc]
        refine ⟨by simp, fun _ => by simp; omega, ?_⟩
        intro i hi
        simp only [List.mem_singleton] at hi
        rw [hi]; rfl
      · rw [if_neg hc]
        have hrec := ih (idx + 1) (count + 1)
        refine ⟨?_, ?_, ?_⟩
        · have h1 := hrec.1
          dsimp only
          rw [List.length_cons]
          omega
        · intro _
          dsimp only
          exact hrec.2.1 (by omega)
        · intro i hi
          dsimp only at hi
          rcases List.mem_cons.mp hi with h | h
          · rw [h]; rfl
          · exact hrec.2.2 i h

/-- The outer page loop of _extract_images: same counter/cap/format
invariants as the inner loop. -/
lemma extractAllImages_spec (pgs : List (List (Option ImgData))) (pageNum count : ℕ) :
    (extractAllImages pgs pageNum count).1 =
      count + (extractAllImages pgs pageNum count).2.length ∧
    (count < 50 → (extractAllImages pgs pageNum count).1 ≤ 50) ∧
    (∀ i ∈ (extractAllImages pgs pageNum count).2, i.format = "JPEG") := by
  induction pgs generalizing pageNum count with
  | nil => exact ⟨rfl, fun _ => by simp [extractAllImages]; omega, by simp [extractAllImages]⟩
  | cons pg rest ih =>
    have hpage := extractPageImages_spec pageNum pg 0 count
    dsimp only [extractAllImages]
    by_cases hc : (extractPageImages pageNum pg 0 count).1 ≥ 50
    · rw [if_pos hc]
      exact ⟨hpage.1, fun h => hpage.2.1 h, hpage.2.2⟩
    · rw [if_neg hc]
      have hrec := ih (pageNum + 1) (extractPageImages pageNum pg 0 count).1
      refine ⟨?_, ?_, ?_⟩
      · have h1 := hpage.1
        have h2 := hrec.1
        dsimp only
        rw [List.length_append]
        omega
      · intro _
        dsimp only
        exact hrec.2.1 (by omega)
      · intro i hi
        dsimp only at hi
        rcases List.mem_append.mp hi with h | h
        · exact hpage.2.2 i h
        · exact hrec.2.2 i h

/-- _extract_images appends at most 50 records, all JPEG, when the
incoming result holds no images. -/
lemma extractImages_cap (env : Env) (r : Result) (h : r.images = []) :
    (extractImages env r).1.images.length ≤ 50 ∧
    (∀ i ∈ (extractImages env r).1.images, i.format = "JPEG") := by
  unfold extractImages
  cases hf : env.fitzOpen with
  | error e => simp [h]
  | ok pages =>
    have hs := extractAllImages_spec pages 0 0
    have hlen : (extractAllImages pages 0 0).2.length ≤ 50 := by
      have h1 := hs.1
      have h2 := hs.2.1 (by omega)
      omega
    dsimp only
    constructor
    · split <;> simp [h, hlen]
    · intro i hi
      split at hi <;> simp only [h, List.nil_append] at hi <;>
        exact hs.2.2 i (by simpa using hi)

/-- The streaming page loop yields one PageResult per page. -/
lemma streamLoop_pages_length (cs total : ℕ) (ps : List PageObj) (idx : ℕ) :
    (streamLoop cs total ps idx).pages.length = ps.length := by
  induction ps generalizing idx with
  | nil => rfl
  | cons pg rest ih =>
    cases h : pg.extractText with
    | error e => simp [streamLoop, h, ih]
    | ok t => simp [streamLoop, h, ih]

/-- A page whose extraction raises yields, in the streaming loop, a
PageResult carrying the inline error marker in place of its text. -/
lemma streamLoop_error_marker (cs total : ℕ) (ps : List PageObj) (idx : ℕ)
    (i : ℕ) (h : i < ps.length) (e : String)
    (herr : (ps.get ⟨i, h⟩).extractText = .error e) :
    (streamLoop cs total ps idx).pages.get? i =
      some ⟨idx + i + 1, streamErrorText (idx + i + 1) e, []⟩ := by
  induction ps generalizing idx i with
  | nil => exact absurd h (by simp)
  | cons pg rest ih =>
    cases i with
    | zero =>
      simp only [List.get] at herr
      simp [streamLoop, herr]
    | succ i =>
      simp only [List.get] at herr
      have harith : idx + (i + 1) + 1 = (idx + 1) + i + 1 := by omega
      rw [harith]
      have hrec := ih (idx + 1) i (by simpa using Nat.lt_of_succ_lt_succ h) herr
      cases hx : pg.extractText with
      | error e2 => simpa [streamLoop, hx] using hrec
      | ok t => simpa [streamLoop, hx] using hrec

/-- In the standard page loop the first page exception aborts the loop:
the exception escapes, no PageResult is recorded for the failing page,
and no later page is visited. -/
lemma stdLoop_aborts (total : ℕ) (ps : List PageObj) (n : ℕ) (i : ℕ)
    (h : i < ps.length) (e : String)
    (hok : ∀ j (hj : j < ps.length), j < i → ∃ t, (ps.get ⟨j, hj⟩).extractText = .ok t)
    (herr : (ps.get ⟨i, h⟩).extractText = .error e) :
    (stdLoop total ps n).err = some e ∧ (stdLoop total ps n).pages.length = i := by
  induction ps generalizing n i with
  | nil => exact absurd h (by simp)
  | cons pg rest ih =>
    cases i with
    | zero =>
      simp only [List.get] at herr
      simp [stdLoop, herr]
    | succ i =>
      obtain ⟨t, ht⟩ := hok 0 (by simp) (Nat.succ_pos i)
      simp only [List.get] at ht herr
      have hrec := ih (n + 1) i (by simpa using Nat.lt_of_succ_lt_succ h)
        (fun j hj hlt => hok (j + 1) (by simpa using Nat.succ_lt_succ hj) (Nat.succ_lt_succ hlt))
        herr
      constructor
      · simpa [stdLoop, ht] using hrec.1
      · simpa [stdLoop, ht] using hrec.2

/-- When no chunk outcome is fatal, the chunk loop completes and its
block list is exactly the per-chunk blocks in order: chunk failures
contribute their error block and processing continues. -/
lemma chunkedLoop_no_fatal (env : Env) (total : ℕ) (rs : List (ℕ × ℕ)) (acc : ℕ)
    (h : ∀ p ∈ rs, ∀ m, env.chunkOutcome p.1 p.2 ≠ .fatal m) :
    (chunkedLoop env total rs acc).fatal = none ∧
    (chunkedLoop env total rs acc).blocks = rs.filterMap (fun p => chunkBlock env p.1 p.2) := by
  induction rs generalizing acc with
  | nil => exact ⟨rfl, rfl⟩
  | cons p rest ih =>
    obtain ⟨s, e⟩ := p
    have hrest : ∀ q ∈ rest, ∀ m, env.chunkOutcome q.1 q.2 ≠ .fatal m :=
      fun q hq => h q (List.mem_cons_of_mem _ hq)
    have hrec := ih (acc + (e - s + 1)) hrest
    cases hc : env.chunkOutcome s e with
    | fatal m => exact absurd hc (h (s, e) (List.mem_cons_self _ _) m)
    | extractError =>
      constructor
      · simpa [chunkedLoop, hc] using hrec.1
      · simp only [chunkedLoop, hc]
        rw [hrec.2, List.filterMap_cons]
        simp [chunkBlock, hc]
    | ok t =>
      constructor
      · simpa [chunkedLoop, hc] using hrec.1
      · simp only [chunkedLoop, hc]
        rw [hrec.2, List.filterMap_cons]
        by_cases ht : t = ""
        · simp [chunkBlock, hc, ht]
        · simp [chunkBlock, hc, ht]

/-- Every chunk range is (1 + 20i, min (start + 19) total). -/
lemma chunkRanges_shape (total s e : ℕ) (h : (s, e) ∈ chunkRanges total) :
    e = min (s + 19) total ∧ ∃ i < (total + 19) / 20, s = 1 + 20 * i := by
  unfold chunkRanges at h
  rw [List.mem_map] at h
  obtain ⟨a, ha, heq⟩ := h
  rw [List.mem_range'] at ha
  obtain ⟨i, hi, rfl⟩ := ha
  injection heq with h1 h2
  subst h1
  subst h2
  exact ⟨rfl, i, hi, rfl⟩

/-! ### C5: the quality heuristic -/

/-- C5: the quality heuristic is a pure function of (pages_with_text,
total_pages, avg_text_per_page); the standard pipeline fails exactly when
pages_with_text < total_pages * 0.5 or avg_text_per_page < 100, the
streaming pipeline exactly when pages_with_text < total_pages * 0.3 or
avg_text_per_page < 50; with zero pages the average is computed as 0
without a division error and both profiles deterministically report
failure. -/
theorem c5_quality_heuristic (pwt total ttl : ℕ) :
    (textExtractionFailedStd pwt total (avgTextPerPage ttl total) = true ↔
      specStandardFailure pwt total (avgTextPerPage ttl total)) ∧
    (textExtractionFailedStream pwt total (avgTextPerPage ttl total) = true ↔
      specStreamingFailure pwt total (avgTextPerPage ttl total)) ∧
    avgTextPerPage ttl 0 = 0 ∧
    textExtractionFailedStd pwt 0 (avgTextPerPage ttl 0) = true ∧
    textExtractionFailedStream pwt 0 (avgTextPerPage ttl 0) = true := by
  refine ⟨?_, ?_, ?_, ?_, ?_⟩
  · simp [textExtractionFailedStd, specStandardFailure]
  · simp [textExtractionFailedStream, specStreamingFailure]
  · simp [avgTextPerPage]
  · simp [textExtractionFailedStd, avgTextPerPage]
  · simp [textExtractionFailedStream, avgTextPerPage]

/-! ### C2: progress monotonicity and the final 100 -/

/-- C2 counterexample: on a small scanned document the pushed percentages
are 5, 10, 85, 85, 90, 87, 100 - the OCR-decision report at 90 is
followed by the image-extraction report at 87, so the sequence pushed to
the progress sink is NOT monotonically non-decreasing. -/
theorem c2_counterexample :
    (process envC2).prog.map Prod.fst = [5, 10, 85, 85, 90, 87, 100] ∧
    ¬ List.Sorted (· ≤ ·) ((process envC2).prog.map Prod.fst) := by
  constructor
  · decide
  · rw [show (process envC2).prog.map Prod.fst = [5, 10, 85, 85, 90, 87, 100] from by decide]
    decide

/-- C2 amended: the final value pushed to the progress sink is exactly
100 on every path, failure paths included (the completion report of line
84 is unconditional); monotonicity, however, does not hold in general:
whenever a pipeline emits its post-analysis reports (88-95) and control
returns to process, the image-extraction report at 87 is lower. -/
theorem c2_final_progress_is_100 (env : Env) :
    (process env).prog.getLast? = some (100, "PDF processing completed") := by
  unfold process
  simp

/-! ### C6: top-level failure behaviour -/

/-- C6 counterexample: when the whole-document parse fails and the OCR
fallback also fails (inside OCRProcessor, which catches its own
exceptions), the returned result has NO populated error field - the
failure is only visible in the text message and metadata.fallback_reason;
the branch that would populate error together with placeholder text is
unreachable. -/
theorem c6_counterexample :
    (process envC6).result.error = none ∧
    (process envC6).result.text = "Error processing file with OCR: tesseract missing" ∧
    (process envC6).result.text ≠ "" ∧
    (process envC6).result.metadata.fallback_reason = some "PDF processing error: parse failure" ∧
    (process envC6).result.extraction_method = "ocr_fallback" := by
  refine ⟨by decide, by decide, by decide, by decide, by decide⟩

/-- C6 amended: process always returns a complete result (it is a total
function of the environment) and records the parse error in
metadata.fallback_reason; when the parse fails and the OCR engine fails
internally, the result's text is the non-empty OCR error message but the
error field stays unset; the error field is populated only when the OCR
fallback machinery itself raises (import/constructor failure), and then
the text stays empty. -/
theorem c6_amended (env : Env) (e : String) (hopen : env.openPdf = .error e) :
    (process env).result.metadata.fallback_reason = some ("PDF processing error: " ++ e) ∧
    (∀ msg, env.ocrImport = none → env.ocrWhole = .error msg →
      (process env).result.error = none ∧
      (process env).result.text = "Error processing file with OCR: " ++ msg ∧
      (process env).result.text ≠ "" ∧
      (process env).result.extraction_method = "ocr_fallback") ∧
    (∀ m, env.ocrImport = some m →
      (process env).result.error = some ("OCR fallback failed: " ++ m) ∧
      (process env).result.text = "") := by
  unfold process processCore
  rw [hopen]
  refine ⟨?_, ?_, ?_⟩
  · unfold processException fallbackToOcr
    cases h : env.ocrImport <;> simp [h]
  · intro msg h1 h2
    unfold processException fallbackToOcr ocrProcess
    rw [h1, h2]
    refine ⟨by rfl, by rfl, ?_, by rfl⟩
    intro hcontra
    have hlen := congrArg String.length hcontra
    simp [String.length_append] at hlen
    exact absurd hlen.1 (by decide)
  · intro m h1
    unfold processException fallbackToOcr
    rw [h1]
    simp [initResult]

/-- C6 witness: the amended theorem applied to the concrete failing
environment. -/
theorem c6_amended_witness :
    (process envC6).result.metadata.fallback_reason = some ("PDF processing error: " ++ "parse failure") ∧
    (process envC6).result.error = none :=
  ⟨(c6_amended envC6 "parse failure" rfl).1,
   ((c6_amended envC6 "parse failure" rfl).2.1 "tesseract missing" rfl rfl).1⟩

/-! ### C9: image color-mode normalization -/

/-- C9 counterexample: a PA-mode image (palette with alpha, so its color
mode includes an alpha channel) is NOT flattened onto a white background
- it takes the generic convert branch; and an L-mode image, although not
a 3-channel mode, is NOT converted to a 3-channel mode but kept as L.
Both flow into ImageRecords without aborting the extraction of the other
image on the page. -/
theorem c9_counterexample :
    modeHasAlpha "PA" = true ∧
    (extractImages envC9 initResult).1.images.map (fun i => i.normalized) =
      [.convertedRGB paImg, .unchanged lImg] ∧
    normalizeImage paImg ≠ .flattenedOnWhite paImg ∧
    (NormalizedImage.unchanged lImg).mode = "L" ∧
    ("L" : String) ≠ "RGB" := by
  refine ⟨by decide, by decide, by decide, by decide, by decide⟩

/-- C9 amended: the extractor flattens exactly the modes RGBA and LA onto
an opaque white background; every other mode except RGB and L is
converted to RGB (including alpha-bearing modes such as PA, which lose
their alpha without explicit flattening); RGB and L are kept; and a
single image's decode or re-encode failure is skipped while the loop
continues with the remaining images unchanged. -/
theorem c9_amended :
    (∀ d : ImgData, d.mode = "RGBA" ∨ d.mode = "LA" → normalizeImage d = .flattenedOnWhite d) ∧
    (∀ d : ImgData, d.mode ≠ "RGBA" → d.mode ≠ "LA" → d.mode ≠ "RGB" → d.mode ≠ "L" →
      normalizeImage d = .convertedRGB d ∧ (normalizeImage d).mode = "RGB") ∧
    (∀ d : ImgData, d.mode = "RGB" ∨ d.mode = "L" → normalizeImage d = .unchanged d) ∧
    (∀ pageNum rest idx count,
      extractPageImages pageNum (none :: rest) idx count =
        extractPageImages pageNum rest (idx + 1) count) := by
  refine ⟨?_, ?_, ?_, ?_⟩
  · intro d h
    simp [normalizeImage, h]
  · intro d h1 h2 h3 h4
    constructor
    · simp [normalizeImage, h1, h2, h3, h4]
    · simp [normalizeImage, h1, h2, h3, h4, NormalizedImage.mode]
  · intro d h
    rcases h with h | h <;> simp [normalizeImage, h]
  · intro pageNum rest idx count
    rfl

/-- C9 witness: the amended theorem applied to concrete RGBA, CMYK and L
images and a skipped image. -/
theorem c9_amended_witness :
    normalizeImage ⟨"png", "RGBA", 4, 4, 9⟩ = .flattenedOnWhite ⟨"png", "RGBA", 4, 4, 9⟩ ∧
    normalizeImage ⟨"jpeg", "CMYK", 4, 4, 9⟩ = .convertedRGB ⟨"jpeg", "CMYK", 4, 4, 9⟩ ∧
    normalizeImage lImg = .unchanged lImg ∧
    extractPageImages 0 [none, some lImg] 0 0 = extractPageImages 0 [some lImg] 1 0 :=
  ⟨c9_amended.1 ⟨"png", "RGBA", 4, 4, 9⟩ (Or.inl rfl),
   (c9_amended.2.1 ⟨"jpeg", "CMYK", 4, 4, 9⟩ (by decide) (by decide) (by decide) (by decide)).1,
   c9_amended.2.2.1 lImg (Or.inr rfl),
   c9_amended.2.2.2 0 [some lImg] 0 0⟩

/-! ### C1: the >200MB skip-OCR branch -/

/-- C1 counterexample: a 250MB single-page scanned document takes the
streaming pipeline's >200MB branch - no OCR is invoked and
metadata.note and metadata.recommendation are both present - but the
returned result's extraction_method field is still "text_extraction",
not "text_extraction_only" (only metadata.processing_method records that
value). -/
theorem c1_counterexample :
    (process envC1).result.metadata.file_size_mb = some 250 ∧
    (streamLoop (streamChunkSize 1) 1 [noTextPage] 0).pwt = 0 ∧
    textExtractionFailedStream 0 1 (avgTextPerPage 0 1) = true ∧
    (process envC1).ocr = [] ∧
    (process envC1).result.metadata.note.isSome ∧
    (process envC1).result.metadata.recommendation.isSome ∧
    (process envC1).result.extraction_method = "text_extraction" ∧
    (process envC1).result.extraction_method ≠ "text_extraction_only" := by
  refine ⟨by decide, by decide, by decide, by decide, by decide, by decide, by decide, by decide⟩

/-- C1 amended: for every document routed to the streaming pipeline whose
stored file_size_mb exceeds 200 and whose quality heuristic fails, no OCR
stage is invoked and metadata.note and metadata.recommendation are both
present; the value text_extraction_only is recorded under
metadata.processing_method while the top-level extraction_method stays
"text_extraction". -/
theorem c1_amended (env : Env) (pdf : PdfDoc) (hopen : env.openPdf = .ok pdf)
    (hmb : ((env.fileSize : ℚ) / (1024 * 1024)) > 50)
    (hmeta : pdf.metadata.isSome)
    (hfs : round2 ((env.fileSize : ℚ) / (1024 * 1024)) > 200)
    (hfail : textExtractionFailedStream
        (streamLoop (streamChunkSize pdf.pages.length) pdf.pages.length pdf.pages 0).pwt
        pdf.pages.length
        (avgTextPerPage
          (streamLoop (streamChunkSize pdf.pages.length) pdf.pages.length pdf.pages 0).ttl
          pdf.pages.length) = true) :
    (process env).result.metadata.note =
      some "OCR skipped for extremely large file - recommend splitting PDF first" ∧
    (process env).result.metadata.recommendation =
      some "Split this PDF into smaller chunks for OCR processing" ∧
    (process env).result.metadata.processing_method = some "text_extraction_only" ∧
    (process env).result.extraction_method = "text_extraction" ∧
    (process env).ocr = [] := by
  obtain ⟨md, hmd⟩ := Option.isSome_iff_exists.mp hmeta
  unfold process processCore
  rw [hopen]
  dsimp only
  rw [if_pos hmb]
  unfold processLargePdfStreaming streamingDecision openedMetadata
  rw [hmd]
  dsimp only
  rw [hfail]
  simp only [if_true, Option.getD_some]
  rw [if_pos hfs]
  have hp := extractImages_preserves env
  refine ⟨?_, ?_, ?_, ?_, rfl⟩ <;> simp [hp, initResult]

/-- C1 witness: the amended theorem applied to the concrete 250MB
document. -/
theorem c1_amended_witness :
    (process envC1).result.metadata.processing_method = some "text_extraction_only" ∧
    (process envC1).ocr = [] := by
  have h := c1_amended envC1 ⟨[noTextPage], some ⟨"t", "a", "s", "c"⟩⟩ rfl (by decide)
    (by decide) (by decide) (by decide)
  exact ⟨h.2.2.1, h.2.2.2.2⟩

/-! ### C3: page-level failure capture -/

/-- C3 counterexample: in the standard pipeline a page whose text
extraction raises has NO try/except around it - the exception escapes
the page loop (no PageResult is recorded for it, the second page is
never visited) and _process_standard_pdf propagates it, so the top-level
handler switches the whole document to the OCR fallback instead of
capturing the failure in that page's PageResult. -/
theorem c3_counterexample :
    (stdLoop 2 [failingPage, richPage] 1).err = some "boom" ∧
    (stdLoop 2 [failingPage, richPage] 1).pages = [] ∧
    (stdLoop 2 [failingPage, richPage] 1).prog.length = 1 ∧
    (processStandardPdf envC3 ⟨[failingPage, richPage], none⟩ initResult 2).result =
      .error ("boom", initResult) ∧
    (process envC3).result.extraction_method = "ocr_fallback" ∧
    (streamLoop (streamChunkSize 2) 2 [failingPage, richPage] 0).pages.map PageData.text =
      ["Error processing page 1: boom",
       "This page carries a comfortable amount of body text for extraction."] := by
  refine ⟨by decide, by decide, by decide, by decide, by decide, by decide⟩

/-- C3 amended: in the streaming pipeline a page text-extraction failure
is captured in that page's PageResult as an inline error marker and every
page still yields a PageResult (extraction of the remaining pages
continues); in the standard pipeline, by contrast, the first failing page
makes the loop abort with the exception, recording no PageResult for the
failing page or any later page. -/
theorem c3_amended (cs total : ℕ) (ps : List PageObj) (idx : ℕ) :
    ((streamLoop cs total ps idx).pages.length = ps.length) ∧
    (∀ i (h : i < ps.length) e, (ps.get ⟨i, h⟩).extractText = .error e →
      (streamLoop cs total ps idx).pages.get? i =
        some ⟨idx + i + 1, streamErrorText (idx + i + 1) e, []⟩) ∧
    (∀ (n i : ℕ) (h : i < ps.length) e,
      (∀ j (hj : j < ps.length), j < i → ∃ t, (ps.get ⟨j, hj⟩).extractText = .ok t) →
      (ps.get ⟨i, h⟩).extractText = .error e →
      (stdLoop total ps n).err = some e ∧ (stdLoop total ps n).pages.length = i) :=
  ⟨streamLoop_pages_length cs total ps idx,
   fun i h e herr => streamLoop_error_marker cs total ps idx i h e herr,
   fun n i h e hok herr => stdLoop_aborts total ps n i h e hok herr⟩

/-- C3 witness: the amended theorem applied to the concrete two-page
document with a failing first page. -/
theorem c3_amended_witness :
    (streamLoop 5 2 [failingPage, richPage] 0).pages.get? 0 =
      some ⟨1, streamErrorText 1 "boom", []⟩ ∧
    (stdLoop 2 [failingPage, richPage] 1).err = some "boom" := by
  constructor
  · have := (c3_amended 5 2 [failingPage, richPage] 0).2.1 0 (by decide) "boom" (by decide)
    simpa using this
  · exact ((c3_amended 5 2 [failingPage, richPage] 0).2.2 1 0 (by decide) "boom"
      (fun j hj hlt => absurd hlt (by omega)) (by decide)).1

/-! ### C4: the sample-based OCR feasibility test -/

set_option maxHeartbeats 1000000 in
/-- C4 counterexample: on a 150MB 20-page document the sample list holds
nine pages but only the first five are tested; with four successes out of
the five pages actually tested the claim's ratio 4/5 exceeds 0.5, yet the
code divides by the nine sampled pages (4/9 <= 0.5) and abandons full
OCR: no chunk is ever OCRed, extraction_method never becomes chunked_ocr,
and the failure metadata is attached instead. -/
theorem c4_counterexample :
    samplePagesFor 20 = [1, 2, 3, 9, 10, 11, 18, 19, 20] ∧
    (samplePagesFor 20).take 5 = [1, 2, 3, 9, 10] ∧
    (∀ p ∈ (samplePagesFor 20).take 5, (envC4.sampleOutcome p).isSome) ∧
    sampleSuccessCount envC4 (samplePagesFor 20) = 4 ∧
    ((4 : ℚ) / 5 > 1/2) ∧
    (process envC4).result.extraction_method ≠ "chunked_ocr" ∧
    (process envC4).result.metadata.ocr_test_result.isSome ∧
    (process envC4).result.metadata.recommendation.isSome ∧
    (process envC4).ocr =
      ["sample_ocr:1", "sample_ocr:2", "sample_ocr:3", "sample_ocr:9", "sample_ocr:10"] := by
  refine ⟨by decide, by decide, by decide, by decide, by decide, by decide, by decide,
    by decide, by decide⟩

/-- C4 amended: at most the first 5 sampled pages are OCR-tested; a
tested page is a success exactly when its OCR text is truthy and longer
than 50 characters after stripping; success_rate = successes /
max(len(sample_pages), 1), the denominator being the full sample list (up
to nine pages), not the number of pages actually tested; chunked OCR runs
exactly when success_rate > 0.5, and otherwise full OCR is abandoned, the
already-extracted text and extraction_method are retained, and the
ocr_test_result and recommendation metadata are set. -/
theorem c4_amended (env : Env) (existing : Result) (total : ℕ)
    (himp : env.ocrImport = none) :
    (sampleSuccessCount env (samplePagesFor total) =
      sampleSuccessCount env ((samplePagesFor total).take 5)) ∧
    (∀ t, sampleIsSuccess (some t) = (t ≠ "" && (pyStrip t).length > 50)) ∧
    (((sampleSuccessCount env (samplePagesFor total) : ℚ) /
        ((max (samplePagesFor total).length 1 : ℕ) : ℚ) > 1/2) →
      smartOcrForLargeFiles env existing total =
        ⟨(chunkedOcrProcessing env existing total).result,
         [(92, "Testing OCR on sample pages...")] ++
           [(95, "OCR successful on samples (" ++
             pct0 ((sampleSuccessCount env (samplePagesFor total) : ℚ) /
               ((max (samplePagesFor total).length 1 : ℕ) : ℚ)) ++
             "). Processing full document...")] ++
           (chunkedOcrProcessing env existing total).prog,
         sampleOcrTags env (samplePagesFor total) ++
           (chunkedOcrProcessing env existing total).ocr⟩) ∧
    (¬ ((sampleSuccessCount env (samplePagesFor total) : ℚ) /
        ((max (samplePagesFor total).length 1 : ℕ) : ℚ) > 1/2) →
      (smartOcrForLargeFiles env existing total).result.metadata.ocr_test_result =
        some ("Failed (" ++
          pct0 ((sampleSuccessCount env (samplePagesFor total) : ℚ) /
            ((max (samplePagesFor total).length 1 : ℕ) : ℚ)) ++
          " success rate on sample pages)") ∧
      (smartOcrForLargeFiles env existing total).result.metadata.recommendation =
        some "This PDF may not be scannable or may require different OCR settings" ∧
      (smartOcrForLargeFiles env existing total).result.text = existing.text ∧
      (smartOcrForLargeFiles env existing total).result.extraction_method =
        existing.extraction_method ∧
      (smartOcrForLargeFiles env existing total).ocr =
        sampleOcrTags env (samplePagesFor total)) := by
  refine ⟨?_, ?_, ?_, ?_⟩
  · unfold sampleSuccessCount
    rw [List.take_take]
    norm_num
  · intro t
    rfl
  · intro hrate
    unfold smartOcrForLargeFiles
    rw [himp]
    dsimp only
    rw [if_pos hrate]
  · intro hrate
    unfold smartOcrForLargeFiles
    rw [himp]
    dsimp only
    rw [if_neg hrate]
    exact ⟨rfl, rfl, rfl, rfl, rfl⟩

/-- C4 witness: the amended theorem applied to the 150MB 20-page
document, where the rate 4/9 does not exceed 0.5. -/
theorem c4_amended_witness :
    (smartOcrForLargeFiles envC4 initResult 20).result.metadata.ocr_test_result.isSome ∧
    (smartOcrForLargeFiles envC4 initResult 20).ocr =
      sampleOcrTags envC4 (samplePagesFor 20) := by
  have h := (c4_amended envC4 initResult 20 rfl).2.2.2 (by decide)
  exact ⟨by rw [h.1]; rfl, h.2.2.2.2⟩

/-! ### C7: the chunked OCR processor -/

/-- C7 counterexample: when the first chunk's sub-document extraction
fails with FileNotFoundError (pdftk missing) rather than a nonzero exit,
the per-chunk handler does not catch it: the whole chunked stage aborts
- no explicit error block tagged with the page range is appended, the
remaining chunk is never processed, extraction_method is not set to
chunked_ocr, and the result instead carries the stage-level failure text
and error. -/
theorem c7_counterexample :
    envC7.chunkOutcome 1 20 = .fatal "pdftk not found" ∧
    (chunkedOcrProcessing envC7 initResult 40).result.text =
      "Chunked OCR processing failed. This PDF may be too large or complex for OCR." ∧
    (chunkedOcrProcessing envC7 initResult 40).result.extraction_method ≠ "chunked_ocr" ∧
    (chunkedOcrProcessing envC7 initResult 40).result.error =
      some "Chunked OCR failed: pdftk not found" ∧
    (chunkedOcrProcessing envC7 initResult 40).prog.length = 1 := by
  refine ⟨by decide, by decide, by decide, by decide, by decide⟩

/-- C7 amended: the document is partitioned into fixed page-range chunks
of at most 20 pages covering every page; for every chunk whose pdftk
extraction exits nonzero (CalledProcessError) an explicit error block
tagged with that page range is appended and processing continues with the
next chunk, and on completion extraction_method is chunked_ocr, distinct
from the whole-document OCR fallback's value; only an exception the
per-chunk handler does not catch (such as FileNotFoundError) aborts the
stage. -/
theorem c7_amended (env : Env) (existing : Result) (total : ℕ)
    (himp : env.ocrImport = none)
    (hnf : ∀ s e, (s, e) ∈ chunkRanges total → ∀ m, env.chunkOutcome s e ≠ .fatal m) :
    (chunkedOcrProcessing env existing total).result.extraction_method = "chunked_ocr" ∧
    (∀ env2 r2, env2.ocrImport = none →
      (fallbackToOcr env2 r2).1.extraction_method ≠
        (chunkedOcrProcessing env existing total).result.extraction_method) ∧
    (chunkedOcrProcessing env existing total).result.text =
      String.intercalate "\n\n" ((chunkRanges total).filterMap (fun p => chunkBlock env p.1 p.2)) ∧
    (∀ s e, (s, e) ∈ chunkRanges total → env.chunkOutcome s e = .extractError →
      chunkErrorBlock s e ∈ (chunkRanges total).filterMap (fun p => chunkBlock env p.1 p.2)) ∧
    (∀ s e, (s, e) ∈ chunkRanges total → e + 1 - s ≤ 20) ∧
    (∀ p, 1 ≤ p → p ≤ total → ∃ s e, (s, e) ∈ chunkRanges total ∧ s ≤ p ∧ p ≤ e) := by
  have hloop := chunkedLoop_no_fatal env total (chunkRanges total) 0
    (fun p hp => hnf p.1 p.2 hp)
  have hmain : (chunkedOcrProcessing env existing total).result.extraction_method =
      "chunked_ocr" ∧
      (chunkedOcrProcessing env existing total).result.text =
        String.intercalate "\n\n"
          ((chunkRanges total).filterMap (fun p => chunkBlock env p.1 p.2)) := by
    unfold chunkedOcrProcessing
    rw [himp]
    dsimp only
    rw [hloop.1]
    dsimp only
    exact ⟨rfl, by rw [hloop.2]⟩
  refine ⟨hmain.1, ?_, hmain.2, ?_, ?_, ?_⟩
  · intro env2 r2 h2
    rw [hmain.1]
    unfold fallbackToOcr
    rw [h2]
    dsimp only
    intro hcontra
    exact absurd (congrArg String.length hcontra) (by decide)
  · intro s e hm hout
    rw [List.mem_filterMap]
    exact ⟨(s, e), hm, by simp [chunkBlock, hout]⟩
  · intro s e hm
    have := (chunkRanges_shape total s e hm).1
    omega
  · intro p hp1 hp2
    refine ⟨1 + 20 * ((p - 1) / 20), min (1 + 20 * ((p - 1) / 20) + 19) total, ?_, ?_, ?_⟩
    · unfold chunkRanges
      rw [List.mem_map]
      refine ⟨1 + 20 * ((p - 1) / 20), ?_, rfl⟩
      rw [List.mem_range']
      exact ⟨(p - 1) / 20, by omega, by ring⟩
    · omega
    · omega

/-- C7 witness: the amended theorem applied to a 40-page run whose two
chunks both fail with CalledProcessError - both error blocks are present
and the method is still chunked_ocr. -/
theorem c7_amended_witness :
    (chunkedOcrProcessing envC7W initResult 40).result.extraction_method = "chunked_ocr" ∧
    chunkErrorBlock 1 20 ∈ (chunkRanges 40).filterMap (fun p => chunkBlock envC7W p.1 p.2) := by
  have h := c7_amended envC7W initResult 40 rfl (fun _ _ _ _ hc => ChunkOutcome.noConfusion hc)
  exact ⟨h.1, h.2.2.2.1 1 20 (by decide) rfl⟩

/-! ### C8: the image record cap and normalized format -/

/-- C8: every process invocation returns at most 50 image records, and
every record's normalized format field is JPEG regardless of the image's
original format. -/
theorem c8_image_invariants (env : Env) :
    (process env).result.images.length ≤ 50 ∧
    (∀ img ∈ (process env).result.images, img.format = "JPEG") := by
  unfold process processCore
  cases hop : env.openPdf with
  | error e =>
    dsimp only
    rw [(processException_preserves env initResult e).2]
    simp [initResult]
  | ok pdf =>
    dsimp only
    split
    · have hz : (processLargePdfStreaming env pdf
          { initResult with
              metadata := openedMetadata pdf pdf.pages.length ((env.fileSize : ℚ) / (1024 * 1024)) }
          pdf.pages.length).result.images = [] := by
        rw [processLargePdfStreaming_images]
        rfl
      exact extractImages_cap env _ hz
    · unfold processStandardPdf
      dsimp only
      cases herr : (stdLoop pdf.pages.length pdf.pages 1).err with
      | some e =>
        dsimp only
        rw [(processException_preserves env _ _).2]
        simp [initResult]
      | none =>
        dsimp only
        have hz : (standardDecision env
            { initResult with
                metadata := openedMetadata pdf pdf.pages.length ((env.fileSize : ℚ) / (1024 * 1024)),
                pages := initResult.pages ++ (stdLoop pdf.pages.length pdf.pages 1).pages,
                tables := initResult.tables ++ (stdLoop pdf.pages.length pdf.pages 1).tables }
            pdf.pages.length (stdLoop pdf.pages.length pdf.pages 1).pwt
            (stdLoop pdf.pages.length pdf.pages 1).ttl
            (stdLoop pdf.pages.length pdf.pages 1).fullText).result.images = [] := by
          rw [(standardDecision_preserves env _ _ _ _ _).2]
          rfl
        exact extractImages_cap env _ hz

/-! ### C10: the missing-metadata size decision -/

/-- C10: when the opened PDF exposes no document metadata, the
file_size_mb key is never stored in the result's metadata; consequently,
when the quality heuristic fails, both decision steps read file_size_mb
as 0 and always take the direct whole-document OCR fallback branch (the
under-100MB path), regardless of the file's actual byte size. -/
theorem c10_missing_metadata (env : Env) :
    (∀ (r : Result) (total pwt ttl : ℕ) (fullText : List String),
      r.metadata.file_size_mb = none →
      textExtractionFailedStd pwt total (avgTextPerPage ttl total) = true →
      standardDecision env r total pwt ttl fullText =
        ⟨(fallbackToOcr env r).1,
         [(85, "Analyzing extracted content..."), (90, "Low text extraction detected, trying OCR...")],
         (fallbackToOcr env r).2⟩) ∧
    (∀ (r : Result) (total pwt ttl : ℕ) (fullText : List String),
      r.metadata.file_size_mb = none →
      textExtractionFailedStream pwt total (avgTextPerPage ttl total) = true →
      streamingDecision env r total pwt ttl fullText =
        ⟨(fallbackToOcr env r).1,
         [(85, "Analyzing extracted content..."), (90, "Low text extraction detected, trying OCR...")],
         (fallbackToOcr env r).2⟩) ∧
    (∀ pdf : PdfDoc, env.openPdf = .ok pdf → pdf.metadata = none →
      (process env).result.metadata.file_size_mb = none) := by
  refine ⟨?_, ?_, ?_⟩
  · intro r total pwt ttl fullText hnone hfail
    unfold standardDecision
    dsimp only
    rw [hfail]
    simp only [if_true, hnone, Option.getD_none]
    rw [if_neg (by norm_num), if_neg (by norm_num)]
    rfl
  · intro r total pwt ttl fullText hnone hfail
    unfold streamingDecision
    dsimp only
    rw [hfail]
    simp only [if_true, hnone, Option.getD_none]
    rw [if_neg (by norm_num), if_neg (by norm_num)]
    rfl
  · intro pdf hopen hmeta
    unfold process processCore
    rw [hopen]
    dsimp only
    have hmd : openedMetadata pdf pdf.pages.length ((env.fileSize : ℚ) / (1024 * 1024)) = {} := by
      unfold openedMetadata; rw [hmeta]
    split
    · rw [extractImages_fsmb]
      unfold processLargePdfStreaming
      dsimp only
      rw [(streamingDecision_preserves env _ _ _ _ _).1]
      simp [hmd]
    · unfold processStandardPdf
      dsimp only
      cases herr : (stdLoop pdf.pages.length pdf.pages 1).err with
      | some e =>
        dsimp only
        rw [(processException_preserves env _ _).1]
        simp [hmd]
      | none =>
        dsimp only
        rw [extractImages_fsmb]
        rw [(standardDecision_preserves env _ _ _ _ _).1]
        simp [hmd]

/-- C10 witness: the theorem applied to the concrete small document with
no metadata. -/
theorem c10_missing_metadata_witness :
    standardDecision envC2 initResult 1 0 0 [] =
      ⟨(fallbackToOcr envC2 initResult).1,
       [(85, "Analyzing extracted content..."), (90, "Low text extraction detected, trying OCR...")],
       (fallbackToOcr envC2 initResult).2⟩ ∧
    (process envC2).result.metadata.file_size_mb = none := by
  refine ⟨(c10_missing_metadata envC2).1 initResult 1 0 0 [] rfl (by decide), ?_⟩
  exact (c10_missing_metadata envC2).2.2 ⟨[noTextPage], none⟩ rfl rfl

end PDFProc
